import Mathlib

/-!
Verification development for the `authoriser` service of jcarrag/ynab-updater
(`src/authoriser/main.go`). The Go program provisions a Tailscale auth key,
spawns a public funnel server that captures one password submission, sends a
Pushover notification, and serves the captured password over a local unix
socket. The definitions below are a shallow embedding of that program; line
numbers in doc comments refer to `src/authoriser/main.go`.
-/

namespace YnabAuthoriser

/-- An HTTP response as observable from the handlers in `main.go`: status
code, the Content-Type header value, and the raw body. -/
structure HttpResponse where
  status : Nat
  contentType : String
  body : String
deriving DecidableEq

/-- An HTTP request as seen by the handlers: method, URL path, and the parsed
form fields (net/http parses the form-encoded body into key/value pairs). -/
structure HttpRequest where
  method : String
  path : String
  form : List (String × String)

/-- Models Go net/http `Request.FormValue key`: the first value for `key`
in the parsed form, or the empty string when the key is absent. -/
def formValue (form : List (String × String)) (key : String) : String :=
  match form with
  | [] => ""
  | (k, v) :: rest => if k = key then v else formValue rest key

/-- The fixed unix-socket path bound by the local relay server
(main.go line 160). -/
def socketPath : String := "/tmp/ynab-updater_authoriser.sock"

/-- The password variable is initialised to the empty string in `main`
(main.go line 131); this empty string is the Absent representation. -/
def initialPassword : String := ""

/-- The local relay handler (main.go lines 178-193): sets Content-Type, then
responds 404 with no body when `password == ""`, else 200 with the raw
password as the body. -/
def localRelayHandler (password : String) : HttpResponse :=
  if password = "" then
    { status := 404, contentType := "text/plain; charset=utf-8", body := "" }
  else
    { status := 200, contentType := "text/plain; charset=utf-8", body := password }

/-- The local mux registers the relay handler under the pattern "/"
(main.go line 178); in net/http this pattern names no method and the
root subtree, so it matches every method and every path. -/
def rootPatternMatches (_r : HttpRequest) : Bool := true

/-- Go net/http default response when no pattern matches (unreachable here
since the "/" pattern matches everything). -/
def muxNotFound : HttpResponse :=
  { status := 404, contentType := "text/plain; charset=utf-8", body := "404 page not found\n" }

/-- Dispatch of a request through the local mux (main.go lines 177-193):
the "/" pattern matches any request, which is then served by
`localRelayHandler`; the request itself is never read by the handler. -/
def localRelayServe (password : String) (r : HttpRequest) : HttpResponse :=
  if rootPatternMatches r then localRelayHandler password else muxNotFound

/-- The HTML acknowledgment written by the public POST handler
(main.go line 55). -/
def ackHtml : String :=
  "<html><script type=\x27text/javascript\x27>window.alert(\x27Saved password\x27);</script>"

/-- One observable action of the public POST handler. -/
inductive HAction where
  | parseForm
  | writeSecret (v : String)
  | respond (body : String)
  | closeListener
deriving DecidableEq

/-- The public `POST /` handler body (main.go lines 47-56) in execution
order: `ParseForm`, the write `*password = r.FormValue("password")`, the
`fmt.Fprintln` acknowledgment, and finally the deferred `ln.Close()`
(registered first, executed last). -/
def postHandlerActions (form : List (String × String)) : List HAction :=
  [HAction.parseForm,
   HAction.writeSecret (formValue form "password"),
   HAction.respond ackHtml,
   HAction.closeListener]

/-- State shared between the funnel handlers: the password slot, whether the
funnel listener is open, and the responses written so far. -/
structure FunnelState where
  password : String
  lnOpen : Bool
  responses : List String
deriving DecidableEq

/-- Effect of one handler action on the shared state. -/
def execHAction (s : FunnelState) (a : HAction) : FunnelState :=
  match a with
  | HAction.parseForm => s
  | HAction.writeSecret v => { s with password := v }
  | HAction.respond b => { s with responses := s.responses ++ [b] }
  | HAction.closeListener => { s with lnOpen := false }

/-- Sequential execution of a list of handler actions. -/
def execHActions (s : FunnelState) (as : List HAction) : FunnelState :=
  as.foldl execHAction s

/-! ## Concurrent POST submissions against the funnel server

`http.Serve` (main.go line 58) accepts connections while `ln` is open and
runs each `POST /` handler on its own goroutine. A handler performs its
write to the password slot and then, on return, the deferred `ln.Close()`.
Distinct handlers interleave arbitrarily, so we model the serving loop as a
small-step system over traces of events. -/

/-- Progress of one accepted POST handler: accepted but not yet written;
write to the password slot done; deferred close done (handler returned). -/
inductive Phase where
  | start
  | written
  | done
deriving DecidableEq

/-- One in-flight accepted POST handler: its submitted password value and
its progress. -/
structure Handler where
  payload : String
  phase : Phase
deriving DecidableEq

/-- State of the funnel serving loop: whether the funnel listener is still
open, the shared password slot, and the handlers accepted so far. -/
structure ServeState where
  lnOpen : Bool
  password : String
  handlers : List Handler
deriving DecidableEq

/-- The serving loop starts with the listener open (after a successful
`ListenFunnel`, main.go line 29) and the password slot holding the empty
string set in `main` (line 131). -/
def initServeState : ServeState :=
  { lnOpen := true, password := "", handlers := [] }

/-- Events of the serving loop: a connection carrying payload `p` is
accepted (possible only while the listener is open); handler `i` performs
its write `*password = r.FormValue("password")` (line 53); handler `i`
returns and its deferred `ln.Close()` (line 48) runs. -/
inductive SEvent where
  | accept (p : String)
  | doWrite (i : Nat)
  | doClose (i : Nat)
deriving DecidableEq

/-- One step of the serving loop; `none` means the event cannot occur in
this state. A connection is accepted only while the listener is open;
a handler writes exactly once and closes exactly once, in that order
(the deferred close runs after the handler body). -/
def sstep (s : ServeState) (e : SEvent) : Option ServeState :=
  match e with
  | SEvent.accept p =>
      if s.lnOpen then
        some { s with handlers := s.handlers ++ [{ payload := p, phase := Phase.start }] }
      else none
  | SEvent.doWrite i =>
      match s.handlers[i]? with
      | some h =>
          if h.phase = Phase.start then
            some { s with password := h.payload,
                          handlers := s.handlers.set i { payload := h.payload, phase := Phase.written } }
          else none
      | none => none
  | SEvent.doClose i =>
      match s.handlers[i]? with
      | some h =>
          if h.phase = Phase.written then
            some { s with lnOpen := false,
                          handlers := s.handlers.set i { payload := h.payload, phase := Phase.done } }
          else none
      | none => none

/-- Run a trace of serving-loop events; `none` when some event is impossible. -/
def srun (s : ServeState) (evs : List SEvent) : Option ServeState :=
  match evs with
  | [] => some s
  | e :: rest => Option.bind (sstep s e) (fun s2 => srun s2 rest)

/-- The payload of the first accepted submission in a trace, if any. -/
def firstAccepted (evs : List SEvent) : Option String :=
  match evs with
  | [] => none
  | SEvent.accept p :: _ => some p
  | SEvent.doWrite _ :: rest => firstAccepted rest
  | SEvent.doClose _ :: rest => firstAccepted rest

/-- Whether a trace contains an accept event. -/
def hasAccept : List SEvent → Bool
  | [] => false
  | SEvent.accept _ :: _ => true
  | SEvent.doWrite _ :: rest => hasAccept rest
  | SEvent.doClose _ :: rest => hasAccept rest

/-- Whether some accept event occurs after a close event in the trace. -/
def acceptAfterClose : List SEvent → Bool
  | [] => false
  | SEvent.doClose _ :: rest => hasAccept rest || acceptAfterClose rest
  | SEvent.accept _ :: rest => acceptAfterClose rest
  | SEvent.doWrite _ :: rest => acceptAfterClose rest

/-- The sequence of values written to the password slot along a trace,
given the payloads of the handlers already accepted (`hs`). -/
def writeSeq : List String → List SEvent → List String
  | _, [] => []
  | hs, SEvent.accept p :: rest => writeSeq (hs ++ [p]) rest
  | hs, SEvent.doWrite i :: rest => hs.getD i "" :: writeSeq hs rest
  | hs, SEvent.doClose _ :: rest => writeSeq hs rest

/-! ## Startup sequencing in `main` (lines 64-166)

`main` is sequential: decode the TOML config, create the auth key via one
`client.Post`, read the response body, `json.Unmarshal` it (error
discarded), spawn the funnel goroutine, send the Pushover message, bind the
unix socket, install the signal handler and serve. Each fallible step is a
parameter standing for the outside world's answer. -/

/-- The TOML configuration decoded at startup (main.go lines 65-70). -/
structure Config where
  oauthClientId : String
  oauthClientSecret : String
  pushoverApiKey : String
  pushoverUserKey : String
deriving DecidableEq

/-- The decoded credential-issuance response (main.go lines 90-95). -/
structure CreateAuthKeyResponse where
  id : String
  key : String
  created : String
  expires : String
deriving DecidableEq

/-- Go's zero value for `CreateAuthKeyResponse`, the struct's content when
`json.Unmarshal` fails on malformed input (main.go lines 127-128). -/
def zeroAuthKeyResponse : CreateAuthKeyResponse :=
  { id := "", key := "", created := "", expires := "" }

/-- Outcome of a network round trip: a payload on success, or an error. -/
inductive NetResult where
  | ok (body : String)
  | err (msg : String)
deriving DecidableEq

/-- The externally observable effects of one run of `main`'s startup
sequence: how many credential-issuance calls were made, how many Pushover
sends were attempted, whether the unix-socket bind was attempted, whether
the funnel goroutine was spawned, the auth key handed to it, and the exit
code (`none` while the process keeps serving). -/
structure MainTrace where
  provisionCalls : Nat
  notifierCalls : Nat
  localBindAttempted : Bool
  funnelSpawned : Bool
  authKey : String
  exitCode : Option Nat
deriving DecidableEq

/-- The startup sequence of `main` (main.go lines 64-166). `log.Fatal`
exits with status 1. The `json.Unmarshal` return value is discarded at
line 128, so a failed parse (`parsed = none`) leaves the zero-valued
struct and startup continues. -/
def runStartup (toml : Option Config) (post : NetResult) (readAll : NetResult)
    (parsed : Option CreateAuthKeyResponse) (push : NetResult) (localBind : Bool) :
    MainTrace :=
  match toml with
  | none =>
      { provisionCalls := 0, notifierCalls := 0, localBindAttempted := false,
        funnelSpawned := false, authKey := "", exitCode := some 1 }
  | some _ =>
    match post with
    | NetResult.err _ =>
        { provisionCalls := 1, notifierCalls := 0, localBindAttempted := false,
          funnelSpawned := false, authKey := "", exitCode := some 1 }
    | NetResult.ok _ =>
      match readAll with
      | NetResult.err _ =>
          { provisionCalls := 1, notifierCalls := 0, localBindAttempted := false,
            funnelSpawned := false, authKey := "", exitCode := some 1 }
      | NetResult.ok _ =>
        let createAuthKey := parsed.getD zeroAuthKeyResponse
        match push with
        | NetResult.err _ =>
            { provisionCalls := 1, notifierCalls := 1, localBindAttempted := false,
              funnelSpawned := true, authKey := createAuthKey.key, exitCode := some 1 }
        | NetResult.ok _ =>
            if localBind then
              { provisionCalls := 1, notifierCalls := 1, localBindAttempted := true,
                funnelSpawned := true, authKey := createAuthKey.key, exitCode := none }
            else
              { provisionCalls := 1, notifierCalls := 1, localBindAttempted := true,
                funnelSpawned := true, authKey := createAuthKey.key, exitCode := some 1 }

/-! ## Interleaving of `main` with the funnel goroutine

`main` runs `go StartFunnelServer(...)` (line 135) and then immediately
sends the Pushover message (line 148) with no synchronisation against the
goroutine, whose first action is the `ListenFunnel` bind (line 29); a
failed bind runs `log.Fatal` (line 31) which terminates the whole process. -/

/-- Shared state of the coordinator (`main`) and the funnel goroutine.
`bindWillSucceed` is the environment's fixed answer to the bind attempt. -/
structure CoordState where
  funnelSpawned : Bool
  bindAttempted : Bool
  bindWillSucceed : Bool
  bound : Bool
  notified : Bool
  exitCode : Option Nat
deriving DecidableEq

/-- Initial coordinator state, parametrised by whether the funnel bind
would succeed. -/
def cinit (b : Bool) : CoordState :=
  { funnelSpawned := false, bindAttempted := false, bindWillSucceed := b,
    bound := false, notified := false, exitCode := none }

/-- Events: `main` spawns the funnel goroutine; `main` sends the Pushover
notification (its next statement, needing only the spawn before it); the
goroutine attempts its `ListenFunnel` bind, exiting the process on failure. -/
inductive CEvent where
  | spawnFunnel
  | sendNotification
  | attemptBind
deriving DecidableEq

/-- One interleaving step; `none` when the event cannot occur. No step is
possible once the process has exited. -/
def cstep (s : CoordState) (e : CEvent) : Option CoordState :=
  if s.exitCode.isSome then none
  else
    match e with
    | CEvent.spawnFunnel =>
        if s.funnelSpawned then none
        else some { s with funnelSpawned := true }
    | CEvent.sendNotification =>
        if s.funnelSpawned && !s.notified then some { s with notified := true }
        else none
    | CEvent.attemptBind =>
        if s.funnelSpawned && !s.bindAttempted then
          if s.bindWillSucceed then
            some { s with bindAttempted := true, bound := true }
          else
            some { s with bindAttempted := true, exitCode := some 1 }
        else none

/-- Run an interleaving of coordinator/goroutine events. -/
def crun (s : CoordState) (evs : List CEvent) : Option CoordState :=
  match evs with
  | [] => some s
  | e :: rest => Option.bind (cstep s e) (fun s2 => crun s2 rest)

/-! ## Signal handling (main.go lines 168-175)

`signal.Notify(c, os.Interrupt, syscall.SIGTERM)` registers SIGINT and
SIGTERM; the handler goroutine removes the socket path and then calls
`os.Exit(1)`. -/

/-- A POSIX signal, as far as this program distinguishes them. -/
inductive Signal where
  | sigint
  | sigterm
  | other (n : Nat)
deriving DecidableEq

/-- The signals forwarded to the cleanup goroutine (main.go line 169). -/
def notifiedSignals : List Signal := [Signal.sigint, Signal.sigterm]

/-- An observable action of the signal-cleanup goroutine. -/
inductive SigAction where
  | removePath (p : String)
  | exitProcess (code : Nat)
deriving DecidableEq

/-- The cleanup goroutine's actions in order (main.go lines 171-175):
`os.Remove(socketPath)` then `os.Exit(1)`. -/
def signalHandlerActions : List SigAction :=
  [SigAction.removePath socketPath, SigAction.exitProcess 1]

/-- Actions performed on receipt of a signal: the registered handler runs
for SIGINT and SIGTERM; other signals are not forwarded to the channel. -/
def onSignal (s : Signal) : List SigAction :=
  if s ∈ notifiedSignals then signalHandlerActions else []

/-! ## Helper lemmas -/

/-- Setting a list position to the value it already holds is a no-op. -/
theorem list_set_self {α : Type} :
    ∀ (l : List α) (n : Nat) (a : α), l[n]? = some a → l.set n a = l
  | [], _, _, h => by simp at h
  | x :: xs, 0, a, h => by
      simp at h
      simp [h]
  | x :: xs, n + 1, a, h => by
      simp at h
      simpa using list_set_self xs n a h

/-- The password slot after any valid serving trace holds the last value
written along the trace (or the starting value when no write occurred). -/
theorem srun_password :
    ∀ (evs : List SEvent) (s s2 : ServeState),
      srun s evs = some s2 →
      s2.password = (writeSeq (s.handlers.map Handler.payload) evs).getLastD s.password := by
  intro evs
  induction evs with
  | nil =>
      intro s s2 h
      simp [srun] at h
      subst h
      simp [writeSeq]
  | cons e rest ih =>
      intro s s2 h
      cases e with
      | accept p =>
          cases hl : s.lnOpen with
          | false => simp [srun, sstep, hl] at h
          | true =>
              simp only [srun, sstep, hl, if_true, Option.bind] at h
              have h2 := ih _ _ h
              simpa [writeSeq, List.map_append] using h2
      | doWrite i =>
          cases hg : s.handlers[i]? with
          | none => simp [srun, sstep, hg] at h
          | some h0 =>
              by_cases hp : h0.phase = Phase.start
              · simp only [srun, sstep, hg, hp, if_true, Option.bind] at h
                have h2 := ih _ _ h
                have hmap : ((s.handlers.set i
                      { payload := h0.payload, phase := Phase.written }).map Handler.payload)
                    = s.handlers.map Handler.payload := by
                  rw [List.map_set]
                  exact list_set_self _ _ _ (by simp [List.getElem?_map, hg])
                have hget : (s.handlers.map Handler.payload).getD i "" = h0.payload := by
                  simp [List.getD_eq_getElem?_getD, List.getElem?_map, hg]
                rw [hmap] at h2
                simp only [writeSeq, hget, List.getLastD_cons]
                exact h2
              · simp [srun, sstep, hg, hp] at h
      | doClose i =>
          cases hg : s.handlers[i]? with
          | none => simp [srun, sstep, hg] at h
          | some h0 =>
              by_cases hp : h0.phase = Phase.written
              · simp only [srun, sstep, hg, hp, if_true, Option.bind] at h
                have h2 := ih _ _ h
                have hmap : ((s.handlers.set i
                      { payload := h0.payload, phase := Phase.done }).map Handler.payload)
                    = s.handlers.map Handler.payload := by
                  rw [List.map_set]
                  exact list_set_self _ _ _ (by simp [List.getElem?_map, hg])
                rw [hmap] at h2
                simpa [writeSeq] using h2
              · simp [srun, sstep, hg, hp] at h

/-- Once the funnel listener is closed, no trace from that state accepts a
further submission. -/
theorem srun_closed_no_accept :
    ∀ (evs : List SEvent) (s s2 : ServeState),
      s.lnOpen = false → srun s evs = some s2 → hasAccept evs = false := by
  intro evs
  induction evs with
  | nil => intro s s2 _ _; simp [hasAccept]
  | cons e rest ih =>
      intro s s2 hl h
      cases e with
      | accept p => simp [srun, sstep, hl] at h
      | doWrite i =>
          cases hg : s.handlers[i]? with
          | none => simp [srun, sstep, hg] at h
          | some h0 =>
              by_cases hp : h0.phase = Phase.start
              · simp only [srun, sstep, hg, hp, if_true, Option.bind] at h
                simpa [hasAccept] using ih _ _ (by simp [hl]) h
              · simp [srun, sstep, hg, hp] at h
      | doClose i =>
          cases hg : s.handlers[i]? with
          | none => simp [srun, sstep, hg] at h
          | some h0 =>
              by_cases hp : h0.phase = Phase.written
              · simp only [srun, sstep, hg, hp, if_true, Option.bind] at h
                simpa [hasAccept] using ih _ _ (by simp) h
              · simp [srun, sstep, hg, hp] at h

/-- In every valid serving trace, no submission is accepted after a close. -/
theorem srun_no_accept_after_close :
    ∀ (evs : List SEvent) (s s2 : ServeState),
      srun s evs = some s2 → acceptAfterClose evs = false := by
  intro evs
  induction evs with
  | nil => intro s s2 _; simp [acceptAfterClose]
  | cons e rest ih =>
      intro s s2 h
      cases e with
      | accept p =>
          cases hl : s.lnOpen with
          | false => simp [srun, sstep, hl] at h
          | true =>
              simp only [srun, sstep, hl, if_true, Option.bind] at h
              simpa [acceptAfterClose] using ih _ _ h
      | doWrite i =>
          cases hg : s.handlers[i]? with
          | none => simp [srun, sstep, hg] at h
          | some h0 =>
              by_cases hp : h0.phase = Phase.start
              · simp only [srun, sstep, hg, hp, if_true, Option.bind] at h
                simpa [acceptAfterClose] using ih _ _ h
              · simp [srun, sstep, hg, hp] at h
      | doClose i =>
          cases hg : s.handlers[i]? with
          | none => simp [srun, sstep, hg] at h
          | some h0 =>
              by_cases hp : h0.phase = Phase.written
              · simp only [srun, sstep, hg, hp, if_true, Option.bind] at h
                have h1 := srun_closed_no_accept rest _ _ rfl h
                have h2 := ih _ _ h
                simp [acceptAfterClose, h1, h2]
              · simp [srun, sstep, hg, hp] at h

/-- One coordinator step preserves the invariant that a sent notification
implies the funnel goroutine was spawned and a successful bind implies the
environment allowed it; the environment flag itself never changes. -/
theorem cstep_inv (s s2 : CoordState) (e : CEvent) (h : cstep s e = some s2)
    (hP : (s.notified = true → s.funnelSpawned = true)
      ∧ (s.bound = true → s.bindWillSucceed = true)) :
    ((s2.notified = true → s2.funnelSpawned = true)
      ∧ (s2.bound = true → s2.bindWillSucceed = true))
    ∧ s2.bindWillSucceed = s.bindWillSucceed := by
  obtain ⟨hP1, hP2⟩ := hP
  cases e <;> unfold cstep at h <;>
    (repeat' split at h) <;>
    (try exact Option.noConfusion h) <;>
    (injection h with h) <;> subst h <;>
    refine ⟨⟨?_, ?_⟩, ?_⟩ <;> simp_all

/-- Every valid interleaving preserves the coordinator invariant. -/
theorem crun_inv :
    ∀ (evs : List CEvent) (s s2 : CoordState),
      crun s evs = some s2 →
      ((s.notified = true → s.funnelSpawned = true)
        ∧ (s.bound = true → s.bindWillSucceed = true)) →
      ((s2.notified = true → s2.funnelSpawned = true)
        ∧ (s2.bound = true → s2.bindWillSucceed = true))
      ∧ s2.bindWillSucceed = s.bindWillSucceed := by
  intro evs
  induction evs with
  | nil =>
      intro s s2 h hP
      simp [crun] at h
      subst h
      exact ⟨hP, rfl⟩
  | cons e rest ih =>
      intro s s2 h hP
      cases hc : cstep s e with
      | none => simp [crun, hc] at h
      | some s1 =>
          simp only [crun, hc, Option.bind] at h
          have h1 := cstep_inv s s1 e hc hP
          have h2 := ih s1 s2 h h1.1
          exact ⟨h2.1, h2.2.trans h1.2⟩

/-! ## Claims -/

/-- C1 (counterexample): it is not the case that after every quiescent
serving trace the password slot holds the first accepted submission. Two
POSTs accepted before the deferred `ln.Close()` runs both write the slot;
the trace accepting "x" and then "" ends with the slot holding "" (also
demonstrating a transition back to the Absent representation), and the
second write happens after the first handler's close. -/
theorem C1_counterexample :
    ¬ (∀ (evs : List SEvent) (s : ServeState),
          srun initServeState evs = some s →
          (∀ h0 ∈ s.handlers, h0.phase = Phase.done) →
          ∀ p, firstAccepted evs = some p → s.password = p) := by
  intro hcl
  have h2 := hcl
      [SEvent.accept "x", SEvent.accept "", SEvent.doWrite 0, SEvent.doClose 0,
       SEvent.doWrite 1, SEvent.doClose 1]
      { lnOpen := false, password := "",
        handlers := [{ payload := "x", phase := Phase.done },
                     { payload := "", phase := Phase.done }] }
      rfl (by decide) "x" rfl
  exact absurd h2 (by decide)

/-- C1 (amended): after every valid serving trace the password slot holds
the value of the last completed write (last-write-wins; the starting empty
string when no write occurred), and no submission is accepted after the
listener has closed — though a handler accepted before the close may still
complete its write after it. -/
theorem C1_secret_last_write_wins (evs : List SEvent) (s : ServeState)
    (h : srun initServeState evs = some s) :
    s.password = (writeSeq [] evs).getLastD ""
    ∧ acceptAfterClose evs = false := by
  constructor
  · simpa [initServeState] using srun_password evs initServeState s h
  · exact srun_no_accept_after_close evs initServeState s h

/-- Witness for C1 (amended): the single-submission trace accepting "x". -/
theorem C1_secret_last_write_wins_witness :
    (ServeState.mk false "x" [Handler.mk "x" Phase.done]).password
        = (writeSeq [] [SEvent.accept "x", SEvent.doWrite 0, SEvent.doClose 0]).getLastD ""
    ∧ acceptAfterClose [SEvent.accept "x", SEvent.doWrite 0, SEvent.doClose 0] = false :=
  C1_secret_last_write_wins [SEvent.accept "x", SEvent.doWrite 0, SEvent.doClose 0]
    (ServeState.mk false "x" [Handler.mk "x" Phase.done]) rfl

/-- C2 (counterexample): it is not true for every submitted value that the
local relay answers 200 with that value once the submission is visible —
the empty submission leaves the slot equal to the Absent representation and
the relay still answers 404. -/
theorem C2_counterexample :
    ¬ (∀ v : String,
          localRelayHandler
              (execHActions { password := initialPassword, lnOpen := true, responses := [] }
                (postHandlerActions [("password", v)])).password
            = { status := 200, contentType := "text/plain; charset=utf-8", body := v }) := by
  intro hcl
  exact absurd (hcl "") (by decide)

/-- C2 (amended): before any submission the local relay returns 404 with an
empty body; strictly after a submission of any nonempty value `v` is
visible it returns 200 with `v`, byte-for-byte, as the raw body. -/
theorem C2_local_read_gating (v : String) (hv : v ≠ "") :
    localRelayHandler initialPassword
        = { status := 404, contentType := "text/plain; charset=utf-8", body := "" }
    ∧ localRelayHandler
          (execHActions { password := initialPassword, lnOpen := true, responses := [] }
            (postHandlerActions [("password", v)])).password
        = { status := 200, contentType := "text/plain; charset=utf-8", body := v } := by
  constructor
  · rfl
  · simp [execHActions, postHandlerActions, execHAction, formValue, localRelayHandler, hv]

/-- Witness for C2 (amended) at the spec's concrete value "hunter2". -/
theorem C2_local_read_gating_witness :
    localRelayHandler initialPassword
        = { status := 404, contentType := "text/plain; charset=utf-8", body := "" }
    ∧ localRelayHandler
          (execHActions { password := initialPassword, lnOpen := true, responses := [] }
            (postHandlerActions [("password", "hunter2")])).password
        = { status := 200, contentType := "text/plain; charset=utf-8", body := "hunter2" } :=
  C2_local_read_gating "hunter2" (by decide)

/-- C3: the public POST handler parses the form, writes the extracted
`password` field into the shared slot, responds with the HTML
acknowledgment, and closes the public listener; in the handler's action
sequence the write (index 1) is strictly before the deferred close
(index 3), so the close never reorders ahead of the write. -/
theorem C3_post_writes_then_closes (form : List (String × String)) (s : FunnelState) :
    execHActions s (postHandlerActions form)
        = { password := formValue form "password", lnOpen := false,
            responses := s.responses ++ [ackHtml] }
    ∧ (postHandlerActions form)[1]? = some (HAction.writeSecret (formValue form "password"))
    ∧ (postHandlerActions form)[3]? = some HAction.closeListener
    ∧ (1 : Nat) < 3 := by
  refine ⟨rfl, rfl, rfl, by decide⟩

/-- C4 (counterexample): `main` launches the funnel goroutine and sends the
notification with no synchronisation on the bind, so with an environment in
which the bind fails the interleaving "spawn, then notify" still reaches a
state where the Notifier has been invoked. -/
theorem C4_counterexample :
    ¬ (∀ (evs : List CEvent) (s : CoordState),
          crun (cinit false) evs = some s → s.notified = false) := by
  intro hcl
  have h2 := hcl [CEvent.spawnFunnel, CEvent.sendNotification]
      { funnelSpawned := true, bindAttempted := false, bindWillSucceed := false,
        bound := false, notified := true, exitCode := none } rfl
  exact absurd h2 (by decide)

/-- C4 (amended): in every interleaving the notification is sent only after
the funnel goroutine has been spawned, and the listener is bound only when
the environment lets the bind succeed; but nothing orders the notification
after the bind, and a failing bind does not prevent the Notifier from
having been invoked. -/
theorem C4_notify_after_spawn (b : Bool) (evs : List CEvent) (s : CoordState)
    (h : crun (cinit b) evs = some s) :
    (s.notified = true → s.funnelSpawned = true)
    ∧ (s.bound = true → b = true) := by
  have h1 := crun_inv evs (cinit b) s h (by simp [cinit])
  refine ⟨h1.1.1, fun hb => ?_⟩
  have h3 := h1.1.2 hb
  rw [h1.2] at h3
  simpa [cinit] using h3

/-- Witness for C4 (amended): the interleaving spawn, bind, notify with a
succeeding bind. -/
theorem C4_notify_after_spawn_witness :
    ((CoordState.mk true true true true true none).notified = true
        → (CoordState.mk true true true true true none).funnelSpawned = true)
    ∧ ((CoordState.mk true true true true true none).bound = true → true = true) :=
  C4_notify_after_spawn true [CEvent.spawnFunnel, CEvent.attemptBind, CEvent.sendNotification]
    (CoordState.mk true true true true true none) rfl

/-- C5: a malformed credential-issuance response is not fatal — the
`json.Unmarshal` error is discarded (main.go line 128), so with a
successful POST and body read but an unparseable body, startup continues
with the zero-valued credential (auth key "") instead of aborting. -/
theorem C5_malformed_response_not_fatal :
    runStartup
        (some { oauthClientId := "id", oauthClientSecret := "sec",
                pushoverApiKey := "papi", pushoverUserKey := "puser" })
        (NetResult.ok "200 OK") (NetResult.ok "not-json") none (NetResult.ok "receipt") true
      = { provisionCalls := 1, notifierCalls := 1, localBindAttempted := true,
          funnelSpawned := true, authKey := "", exitCode := none } := rfl

/-- C6: when the credential-issuance POST returns an error, `main` exits
with status 1 having made exactly one provisioning call, never invoking
the Notifier, never spawning the funnel goroutine and never attempting the
local socket bind. -/
theorem C6_provision_error_aborts (cfg : Config) (m : String) (readAll : NetResult)
    (parsed : Option CreateAuthKeyResponse) (push : NetResult) (localBind : Bool) :
    runStartup (some cfg) (NetResult.err m) readAll parsed push localBind
        = { provisionCalls := 1, notifierCalls := 0, localBindAttempted := false,
            funnelSpawned := false, authKey := "", exitCode := some 1 }
    ∧ (1 : Nat) ≠ 0 :=
  ⟨rfl, by decide⟩

/-- C7: every submitted value, the empty string included, is accepted by
the public POST handler — the response is the HTML acknowledgment, never an
error — and the listener is closed afterwards regardless of the value. -/
theorem C7_every_value_accepted (v pw0 : String) :
    execHActions { password := pw0, lnOpen := true, responses := [] }
        (postHandlerActions [("password", v)])
      = { password := v, lnOpen := false, responses := [ackHtml] } := by
  simp [execHActions, postHandlerActions, execHAction, formValue]

/-- C8: on SIGINT and on SIGTERM the handler removes the bound socket path
and then exits with status 1: the removal (index 0) precedes the exit
(index 1) and the exit status is non-zero. -/
theorem C8_signal_cleanup_order :
    onSignal Signal.sigint = [SigAction.removePath socketPath, SigAction.exitProcess 1]
    ∧ onSignal Signal.sigterm = [SigAction.removePath socketPath, SigAction.exitProcess 1]
    ∧ (onSignal Signal.sigint)[0]? = some (SigAction.removePath socketPath)
    ∧ (onSignal Signal.sigint)[1]? = some (SigAction.exitProcess 1)
    ∧ (onSignal Signal.sigterm)[0]? = some (SigAction.removePath socketPath)
    ∧ (onSignal Signal.sigterm)[1]? = some (SigAction.exitProcess 1)
    ∧ (0 : Nat) < 1 ∧ (1 : Nat) ≠ 0 := by
  refine ⟨rfl, rfl, rfl, rfl, rfl, rfl, by decide, by decide⟩

/-- C9: the local relay reports 404 exactly when the stored value is the
empty string; the slot starts as the empty string, and after a submission
of the empty string the relay still answers 404 — an empty secret is never
observable as present. -/
theorem C9_absent_is_empty_string :
    (∀ p : String, ((localRelayHandler p).status = 404 ↔ p = ""))
    ∧ initialPassword = ""
    ∧ (localRelayHandler
          (execHActions { password := initialPassword, lnOpen := true, responses := [] }
            (postHandlerActions [("password", "")])).password).status = 404 := by
  refine ⟨?_, rfl, by decide⟩
  intro p
  by_cases hp : p = ""
  · subst hp; simp [localRelayHandler]
  · simp [localRelayHandler, hp]

/-- C10: the local relay's response is a function of the stored secret
alone — any two requests (any methods, any paths) served under the same
stored value get the identical response, namely `localRelayHandler` of
that value, since the "/" pattern matches every request and the handler
never reads the request. -/
theorem C10_response_function_of_secret (pw : String) (r1 r2 : HttpRequest) :
    localRelayServe pw r1 = localRelayServe pw r2
    ∧ localRelayServe pw r1 = localRelayHandler pw :=
  ⟨rfl, rfl⟩

end YnabAuthoriser
